import Mathlib

/-!
Shallow embedding of the promise-based sqlite3 wrapper in src/sqlite/index.ts.

Modelling conventions, fixed once for the whole file:

* A JS error value is an element of the inductive type Err below. The wrapper
  itself only ever constructs new Error(msg) or new TypeError(msg); errors
  coming from the driver are abstract and are modelled as Err.driver with a
  numeric identity, and errors produced by a user-supplied callback function
  are modelled as Err.user. The spec kinds map as follows: NotOpen is
  Err.error with message ending in "database is not open" (or the literal
  "database not connected" used by queryWithSelect), AlreadyOpen is Err.error
  with the "already open" message, InvalidArgument is Err.typeError, and
  DriverError is Err.driver.

* Each promise-returning operation is a function from the handle state and the
  driver outcome to the list of settlement events (resolve / reject calls) the
  executor performs. The driver outcome argument encodes the assumption that
  the driver invokes the supplied callback exactly once; every branch of the
  source executor is mirrored, so the length of the event list is exactly the
  number of times resolve or reject runs.

* Positional SQL parameters are forwarded verbatim to the driver and never
  influence the control flow of the wrapper, with one exception: each
  inspects whether its last argument is a function. Arguments are therefore
  modelled only where they matter, as the list-of-tagged-arguments type Arg.

* Rows returned by the driver carry no structure the wrapper reads; Row is an
  abstract identifier type.
-/

namespace DbAsync

/-- A JS error value as observable through a promise rejection. -/
inductive Err where
  | error (msg : String)
  | typeError (msg : String)
  | driver (code : Nat)
  | user (code : Nat)
deriving DecidableEq

/-- One call of resolve or reject performed by a promise executor. -/
inductive SettleEvent (α : Type) where
  | resolved (v : α)
  | rejected (e : Err)
deriving DecidableEq

/-- Rows coming back from the driver, abstract to the wrapper. -/
abbrev Row := Nat

/-- The completion context captured by the run callback: this.lastID and this.changes. -/
structure RunInfo where
  lastID : Nat
  changes : Nat
deriving DecidableEq

/-- A positional argument as seen by the each argument check: either a function
value or a non-function value (abstract, tagged by a number). -/
inductive Arg where
  | func
  | value (n : Nat)
deriving DecidableEq

/-- The runtime check of the source that the last argument has type function,
false on the empty list. -/
def lastIsFunc (args : List Arg) : Bool :=
  match args.getLast? with
  | some Arg.func => true
  | _ => false

/-- The mode argument of Database.open: absent, a number, or a non-number value. -/
inductive ModeArg where
  | num (n : Int)
  | notNum
deriving DecidableEq

namespace Database

/-- Database.open (src/sqlite/index.ts lines 40-61). State is whether this.db
is attached; the driver outcome is none for success or some e for a driver
error e reported to the open callback. Returns the new state and the
settlement events. -/
def openOp (hasDb : Bool) (mode : Option ModeArg) (drv : Option Nat) :
    Bool × List (SettleEvent Unit) :=
  match mode with
  | some ModeArg.notNum =>
      (hasDb, [SettleEvent.rejected (Err.typeError "Database.open: mode is not a number")])
  | _ =>
      if hasDb then
        (hasDb, [SettleEvent.rejected (Err.error "Database.open: database is already open")])
      else
        match drv with
        | some e => (false, [SettleEvent.rejected (Err.driver e)])
        | none => (true, [SettleEvent.resolved ()])

/-- Database.close with no argument (src/sqlite/index.ts lines 74-77 and 85-95).
On driver failure this.db is left attached; on success it is cleared. -/
def closeOp (hasDb : Bool) (drv : Option Nat) : Bool × List (SettleEvent Unit) :=
  if hasDb = false then
    (hasDb, [SettleEvent.rejected (Err.error "Database.close: database is not open")])
  else
    match drv with
    | some e => (hasDb, [SettleEvent.rejected (Err.driver e)])
    | none => (false, [SettleEvent.resolved ()])

/-- Database.run (lines 105-123). The driver either reports an error or invokes
the callback whose this carries lastID and changes. -/
def runOp (hasDb : Bool) (drv : Except Nat RunInfo) : List (SettleEvent RunInfo) :=
  if hasDb = false then
    [SettleEvent.rejected (Err.error "Database.run: database is not open")]
  else
    match drv with
    | Except.error e => [SettleEvent.rejected (Err.driver e)]
    | Except.ok info => [SettleEvent.resolved info]

/-- Database.get (lines 133-148); the row may be absent when no row matched. -/
def getOp (hasDb : Bool) (drv : Except Nat (Option Row)) : List (SettleEvent (Option Row)) :=
  if hasDb = false then
    [SettleEvent.rejected (Err.error "Database.get: database is not open")]
  else
    match drv with
    | Except.error e => [SettleEvent.rejected (Err.driver e)]
    | Except.ok row => [SettleEvent.resolved row]

/-- Database.all (lines 158-173). -/
def allOp (hasDb : Bool) (drv : Except Nat (List Row)) : List (SettleEvent (List Row)) :=
  if hasDb = false then
    [SettleEvent.rejected (Err.error "Database.all: database is not open")]
  else
    match drv with
    | Except.error e => [SettleEvent.rejected (Err.driver e)]
    | Except.ok rows => [SettleEvent.resolved rows]

/-- Database.each (lines 184-202). The synchronous argument check runs before
the promise executor is created, hence before the open check; a synchronous
throw is the Except.error case, in which no promise exists at all. -/
def eachOp (args : List Arg) (hasDb : Bool) (drv : Except Nat Nat) :
    Except Err (List (SettleEvent Nat)) :=
  if args.length == 0 || !(lastIsFunc args) then
    Except.error (Err.typeError "Database.each: last arg is not a function")
  else
    Except.ok
      (if hasDb = false then
        [SettleEvent.rejected (Err.error "Database.each: database is not open")]
      else
        match drv with
        | Except.error e => [SettleEvent.rejected (Err.driver e)]
        | Except.ok nrows => [SettleEvent.resolved nrows])

/-- Database.exec (lines 319-332); resolves with the handle, modelled as Unit. -/
def execOp (hasDb : Bool) (drv : Option Nat) : List (SettleEvent Unit) :=
  if hasDb = false then
    [SettleEvent.rejected (Err.error "Database.exec: database is not open")]
  else
    match drv with
    | some e => [SettleEvent.rejected (Err.driver e)]
    | none => [SettleEvent.resolved ()]

/-- Database.prepare (lines 358-374); on success resolves with a new Statement
wrapper, modelled as Unit. -/
def prepareOp (hasDb : Bool) (drv : Option Nat) : List (SettleEvent Unit) :=
  if hasDb = false then
    [SettleEvent.rejected (Err.error "Database.prepare: database is not open")]
  else
    match drv with
    | some e => [SettleEvent.rejected (Err.driver e)]
    | none => [SettleEvent.resolved ()]

end Database

namespace Statement

/-- Statement.bind (lines 406-418): no open check, settles on the driver callback. -/
def bindOp (drv : Option Nat) : List (SettleEvent Unit) :=
  match drv with
  | some e => [SettleEvent.rejected (Err.driver e)]
  | none => [SettleEvent.resolved ()]

/-- Statement.reset (lines 420-426). The source registers a zero-parameter
callback and resolves unconditionally: whatever the driver reports is ignored,
so the driver outcome argument is unused. -/
def resetOp (_drv : Option Nat) : List (SettleEvent Unit) :=
  [SettleEvent.resolved ()]

/-- Statement.finalize (lines 428-438); resolves with no value. -/
def finalizeOp (drv : Option Nat) : List (SettleEvent Unit) :=
  match drv with
  | some e => [SettleEvent.rejected (Err.driver e)]
  | none => [SettleEvent.resolved ()]

/-- Statement.run (lines 440-455). -/
def runOp (drv : Except Nat RunInfo) : List (SettleEvent RunInfo) :=
  match drv with
  | Except.error e => [SettleEvent.rejected (Err.driver e)]
  | Except.ok info => [SettleEvent.resolved info]

/-- Statement.get (lines 457-469). -/
def getOp (drv : Except Nat (Option Row)) : List (SettleEvent (Option Row)) :=
  match drv with
  | Except.error e => [SettleEvent.rejected (Err.driver e)]
  | Except.ok row => [SettleEvent.resolved row]

/-- Statement.all (lines 471-483). -/
def allOp (drv : Except Nat (List Row)) : List (SettleEvent (List Row)) :=
  match drv with
  | Except.error e => [SettleEvent.rejected (Err.driver e)]
  | Except.ok rows => [SettleEvent.resolved rows]

/-- Statement.each (lines 485-500): same synchronous argument check as
Database.each, no open check. -/
def eachOp (args : List Arg) (drv : Except Nat Nat) : Except Err (List (SettleEvent Nat)) :=
  if args.length == 0 || !(lastIsFunc args) then
    Except.error (Err.typeError "Statement.each: last arg is not a function")
  else
    Except.ok
      (match drv with
      | Except.error e => [SettleEvent.rejected (Err.driver e)]
      | Except.ok nrows => [SettleEvent.resolved nrows])

end Statement

/-- Number of settlements of the promise returned by an operation that may also
throw synchronously; none means no promise was ever created. -/
def settlesLen {α : Type} : Except Err (List (SettleEvent α)) → Option Nat
  | Except.error _ => none
  | Except.ok l => some l.length

/-- One Database.exec call viewed as (SQL text actually handed to the driver,
result): when the handle is not open, the NotOpen rejection happens before the
driver is reached, so the issued list is empty. -/
def execTrace (hasDb : Bool) (drv : Option Nat) (sql : String) :
    List String × Except Err Unit :=
  if hasDb = false then
    ([], Except.error (Err.error "Database.exec: database is not open"))
  else
    match drv with
    | some e => ([sql], Except.error (Err.driver e))
    | none => ([sql], Except.ok ())

/-- Driver responses for the up to three exec calls a transaction may make. -/
structure TxDriver where
  beginErr : Option Nat
  endErr : Option Nat
  rollbackErr : Option Nat

/-- Database.transaction (src/sqlite/index.ts lines 340-348), mirroring the
promise chain literally. The user function fn is abstracted as the statements
it issues plus its outcome; a synchronous throw inside the then handler and a
rejection are the same Except.error case. The catch handler covers both a
failure of fn and a failure of the END TRANSACTION exec, and the final result
of the rollback path is whatever exec ROLLBACK TRANSACTION then reject
original produces: the rollback error when the rollback exec rejects, the
original error otherwise. Returns (SQL issued to the driver in order, outcome
of the returned promise). The open state is assumed stable across the call. -/
def transactionModel {α : Type} (hasDb : Bool) (d : TxDriver) (fnIssues : List String)
    (fnResult : Except Err α) : List String × Except Err α :=
  let b := execTrace hasDb d.beginErr "BEGIN TRANSACTION"
  match b.2 with
  | Except.error e => (b.1, Except.error e)
  | Except.ok _ =>
      let inner : List String × Except Err α :=
        match fnResult with
        | Except.ok v =>
            let en := execTrace hasDb d.endErr "END TRANSACTION"
            (fnIssues ++ en.1,
              match en.2 with
              | Except.ok _ => Except.ok v
              | Except.error e => Except.error e)
        | Except.error e => (fnIssues, Except.error e)
      match inner.2 with
      | Except.ok v => (b.1 ++ inner.1, Except.ok v)
      | Except.error e =>
          let rb := execTrace hasDb d.rollbackErr "ROLLBACK TRANSACTION"
          (b.1 ++ inner.1 ++ rb.1,
            match rb.2 with
            | Except.ok _ => Except.error e
            | Except.error e2 => Except.error e2)

/-- One argument-less Database.close call as a state transformer: state is
whether this.db is attached, drv is the driver outcome of the close request. -/
def closeStep (hasDb : Bool) (drv : Option Nat) : Bool × Except Err Unit :=
  if hasDb = false then
    (hasDb, Except.error (Err.error "Database.close: database is not open"))
  else
    match drv with
    | some e => (hasDb, Except.error (Err.driver e))
    | none => (false, Except.ok ())

/-- Database.close with a scoped-work function fn (lines 74-83). fn receives
the handle and may itself change the open state, so it is a state transformer
returning the new state and its outcome. The then branch closes and yields the
result of fn; any rejection in that chain (from fn, or from the close that
follows a successful fn) reaches the catch handler, which closes again and
re-rejects. drv1 and drv2 are the driver responses to the first and second
close request actually made. -/
def closeScoped {α : Type} (hasDb : Bool) (fnStep : Bool → Bool × Except Err α)
    (drv1 drv2 : Option Nat) : Bool × Except Err α :=
  if hasDb = false then
    (hasDb, Except.error (Err.error "Database.close: database is not open"))
  else
    let s1 := fnStep hasDb
    match s1.2 with
    | Except.ok v =>
        let c1 := closeStep s1.1 drv1
        match c1.2 with
        | Except.ok _ => (c1.1, Except.ok v)
        | Except.error ce =>
            let c2 := closeStep c1.1 drv2
            match c2.2 with
            | Except.ok _ => (c2.1, Except.error ce)
            | Except.error ce2 => (c2.1, Except.error ce2)
    | Except.error fe =>
        let c1 := closeStep s1.1 drv1
        match c1.2 with
        | Except.ok _ => (c1.1, Except.error fe)
        | Except.error ce => (c1.1, Except.error ce)

/-- The QueryOptions interface (lines 377-382); every field is optional. -/
structure QueryOptions where
  key : Option String
  condition : Option String
  page : Option String
  pagecap : Option String

/-- JS truthiness of an optional string: absent and the empty string are falsy. -/
def truthy : Option String → Bool
  | none => false
  | some s => s != ""

/-- Decimal digit prefix of a character list. -/
def leadingDigits (cs : List Char) : List Char :=
  cs.takeWhile Char.isDigit

/-- Value of a list of decimal digits. -/
def digitsVal (cs : List Char) : Nat :=
  cs.foldl (fun a c => a * 10 + (c.toNat - 48)) 0

/-- parseInt(s, 10) of JS: skip leading whitespace, optional sign, then the
decimal digit prefix; none models NaN (no digits found). -/
def parseIntJS (s : String) : Option Int :=
  let cs := s.data.dropWhile (fun c => c == ' ' || c == '\t' || c == '\n' || c == '\r')
  match cs with
  | '-' :: rest =>
      let ds := leadingDigits rest
      if ds.isEmpty then none else some (-(digitsVal ds : Int))
  | '+' :: rest =>
      let ds := leadingDigits rest
      if ds.isEmpty then none else some ((digitsVal ds : Int))
  | _ =>
      let ds := leadingDigits cs
      if ds.isEmpty then none else some ((digitsVal ds : Int))

/-- Rendering of a JS number into a template literal; NaN prints as NaN. -/
def jnumStr : Option Int → String
  | none => "NaN"
  | some n => toString n

/-- JS subtraction with NaN propagation. -/
def jsub : Option Int → Option Int → Option Int
  | some x, some y => some (x - y)
  | _, _ => none

/-- JS multiplication with NaN propagation. -/
def jmul : Option Int → Option Int → Option Int
  | some x, some y => some (x * y)
  | _, _ => none

/-- Math.ceil(a / b) for a natural numerator and a JS-number denominator,
as used for pagecount. For a positive denominator this is the exact ceiling
(a + b - 1) / b; a NaN denominator gives NaN, and a nonpositive denominator
gives a non-finite JS number, also collapsed to NaN here (no claim and no
reachable source path exercises a nonpositive parsed pagecap together with a
finite result). -/
def jceilDiv (a : Nat) : Option Int → Option Int
  | some q => if 0 < q then some (((a + q.toNat - 1) / q.toNat : Nat) : Int) else none
  | none => none

/-- The keyword-search condition of queryWithSelect (lines 241-245): built only
when options.key is truthy and keys is non-empty. -/
def keywordCond (options : QueryOptions) (keys : List String) : Option String :=
  if truthy options.key && decide (0 < keys.length) then
    some ("(" ++ String.intercalate " OR "
      (keys.map (fun k => k ++ " LIKE \"%" ++ options.key.getD "" ++ "%\"")) ++ ")")
  else
    none

/-- The statements queryWithSelect builds before touching the driver. -/
structure BuiltQuery where
  sql : String
  sqlcount : Option String
  page : Option Int
  pagecap : Option Int
deriving DecidableEq

/-- The pure SQL-building part of Database.queryWithSelect (lines 236-271):
the row statement, the companion count statement (present exactly when
options.page is truthy), and the parsed page and pagecap numbers. -/
def queryPlan (options : QueryOptions) (table : String) (keys : List String)
    (select : String) : BuiltQuery :=
  let sql0 := "SELECT " ++ select ++ " FROM " ++ table
  let condition := keywordCond options keys
  let sql1 :=
    match condition with
    | some c => sql0 ++ " WHERE " ++ c
    | none => sql0
  let sql2 :=
    if truthy options.condition then
      match condition with
      | some _ => sql1 ++ " AND " ++ options.condition.getD ""
      | none => sql1 ++ " WHERE " ++ options.condition.getD ""
    else
      sql1
  if truthy options.page then
    let page := parseIntJS (options.page.getD "")
    let pagecapStr :=
      match options.pagecap with
      | some s => if s == "" then "10" else s
      | none => "10"
    let pagecap := parseIntJS pagecapStr
    let offset := jmul (jsub page (some 1)) pagecap
    let sql3 := sql2 ++ " LIMIT " ++ jnumStr pagecap ++ " OFFSET " ++ jnumStr offset
    let sqlcount0 := "SELECT COUNT(*) AS count FROM " ++ table
    let sqlcount :=
      match condition with
      | some c => sqlcount0 ++ " WHERE " ++ c
      | none => sqlcount0 ++ " WHERE tile_data IS NOT NULL"
    { sql := sql3, sqlcount := some sqlcount, page := page, pagecap := pagecap }
  else
    { sql := sql2, sqlcount := none, page := none, pagecap := none }

/-- The QueryResult record (lines 384-390); pagination fields are set only on
the paginated path. -/
structure QueryResultM where
  rows : List Row
  allcount : Option Nat
  page : Option Int
  pagecap : Option Int
  pagecount : Option Int
deriving DecidableEq

/-- Database.queryWithSelect (lines 226-282) end to end: builds the plan, and
on the paginated path first awaits get on the count statement (countDrv is
that driver outcome, delivering the count column of the row), then awaits all
on the row statement (rowsDrv). Any driver rejection propagates out of the
async function unchanged. -/
def queryWithSelect (hasDb : Bool) (options : QueryOptions) (table : String)
    (keys : List String) (select : String) (countDrv : Except Nat Nat)
    (rowsDrv : Except Nat (List Row)) : Except Err QueryResultM :=
  if hasDb = false then
    Except.error (Err.error "database not connected")
  else
    let plan := queryPlan options table keys select
    match plan.sqlcount with
    | some _ =>
        match countDrv with
        | Except.error e => Except.error (Err.driver e)
        | Except.ok count =>
            match rowsDrv with
            | Except.error e => Except.error (Err.driver e)
            | Except.ok rows =>
                Except.ok
                  { rows := rows, allcount := some count, page := plan.page,
                    pagecap := plan.pagecap, pagecount := jceilDiv count plan.pagecap }
    | none =>
        match rowsDrv with
        | Except.error e => Except.error (Err.driver e)
        | Except.ok rows =>
            Except.ok
              { rows := rows, allcount := none, page := none, pagecap := none,
                pagecount := none }

/-! Helper lemmas shared by several claim theorems. -/

theorem lastIsFunc_append (args : List Arg) : lastIsFunc (args ++ [Arg.func]) = true := by
  simp [lastIsFunc]

theorem eachGuard_append (args : List Arg) :
    ((args ++ [Arg.func]).length == 0 || !(lastIsFunc (args ++ [Arg.func]))) = false := by
  simp [lastIsFunc_append]

theorem openOp_settles (hasDb : Bool) (mode : Option ModeArg) (drv : Option Nat) :
    (Database.openOp hasDb mode drv).2.length = 1 := by
  match mode with
  | none => cases hasDb <;> cases drv <;> rfl
  | some (ModeArg.num n) => cases hasDb <;> cases drv <;> rfl
  | some ModeArg.notNum => rfl

theorem closeOp_settles (hasDb : Bool) (drv : Option Nat) :
    (Database.closeOp hasDb drv).2.length = 1 := by
  cases hasDb <;> cases drv <;> rfl

theorem runOp_settles (hasDb : Bool) (drv : Except Nat RunInfo) :
    (Database.runOp hasDb drv).length = 1 := by
  cases hasDb <;> cases drv <;> rfl

theorem getOp_settles (hasDb : Bool) (drv : Except Nat (Option Row)) :
    (Database.getOp hasDb drv).length = 1 := by
  cases hasDb <;> cases drv <;> rfl

theorem allOp_settles (hasDb : Bool) (drv : Except Nat (List Row)) :
    (Database.allOp hasDb drv).length = 1 := by
  cases hasDb <;> cases drv <;> rfl

theorem eachOp_settles (args : List Arg) (hasDb : Bool) (drv : Except Nat Nat) :
    settlesLen (Database.eachOp (args ++ [Arg.func]) hasDb drv) = some 1 := by
  simp only [Database.eachOp, eachGuard_append, Bool.false_eq_true, if_false]
  cases hasDb <;> cases drv <;> rfl

theorem execOp_settles (hasDb : Bool) (drv : Option Nat) :
    (Database.execOp hasDb drv).length = 1 := by
  cases hasDb <;> cases drv <;> rfl

theorem prepareOp_settles (hasDb : Bool) (drv : Option Nat) :
    (Database.prepareOp hasDb drv).length = 1 := by
  cases hasDb <;> cases drv <;> rfl

theorem bindOp_settles (drv : Option Nat) : (Statement.bindOp drv).length = 1 := by
  cases drv <;> rfl

theorem resetOp_settles (drv : Option Nat) : (Statement.resetOp drv).length = 1 := rfl

theorem finalizeOp_settles (drv : Option Nat) : (Statement.finalizeOp drv).length = 1 := by
  cases drv <;> rfl

theorem stmtRunOp_settles (drv : Except Nat RunInfo) : (Statement.runOp drv).length = 1 := by
  cases drv <;> rfl

theorem stmtGetOp_settles (drv : Except Nat (Option Row)) :
    (Statement.getOp drv).length = 1 := by
  cases drv <;> rfl

theorem stmtAllOp_settles (drv : Except Nat (List Row)) :
    (Statement.allOp drv).length = 1 := by
  cases drv <;> rfl

theorem stmtEachOp_settles (args : List Arg) (drv : Except Nat Nat) :
    settlesLen (Statement.eachOp (args ++ [Arg.func]) drv) = some 1 := by
  simp only [Statement.eachOp, eachGuard_append, Bool.false_eq_true, if_false]
  cases drv <;> rfl

/-! The claim theorems. -/

/-- Claim C1, counterexample. On an open handle, with BEGIN TRANSACTION
succeeding and fn rejecting with its own error (user 7), a failing ROLLBACK
TRANSACTION (driver error 3) makes the transaction call reject with the
rollback error, not with the original error of fn: the claim that the original
error is re-raised regardless of the rollback outcome is false at this input.
The ROLLBACK statement is still issued, as the trace shows. -/
theorem transaction_rollback_failure_masks_original :
    transactionModel (α := Unit) true ⟨none, none, some 3⟩ ["S1"] (Except.error (Err.user 7))
      = (["BEGIN TRANSACTION", "S1", "ROLLBACK TRANSACTION"], Except.error (Err.driver 3))
    ∧ (Err.driver 3 : Err) ≠ Err.user 7 := by
  exact ⟨rfl, by decide⟩

/-- Claim C1, amended. On an open handle, if BEGIN TRANSACTION succeeds and fn
fails, then ROLLBACK TRANSACTION is issued right after the statements of fn;
the transaction call rejects with the original error of fn when the rollback
statement succeeds, and with the driver error of the rollback statement when
the rollback itself fails. -/
theorem transaction_fn_failure_rolls_back {α : Type} (endErr rollbackErr : Option Nat)
    (fnIssues : List String) (e : Err) :
    transactionModel (α := α) true ⟨none, endErr, rollbackErr⟩ fnIssues (Except.error e)
      = ("BEGIN TRANSACTION" :: (fnIssues ++ ["ROLLBACK TRANSACTION"]),
          match rollbackErr with
          | none => Except.error e
          | some re2 => Except.error (Err.driver re2)) := by
  cases rollbackErr <;> rfl

/-- Claim C2. Calling close(fn) on an open handle runs fn and closes the
connection on both exit paths of fn: when fn leaves the connection attached
and the driver close request succeeds (first driver response none), the final
state is closed, and the call settles exactly as fn did — resolving with the
result of fn on success, rejecting with the original error of fn on failure. -/
theorem close_scoped_releases_on_all_paths {α : Type}
    (fnStep : Bool → Bool × Except Err α) (drv2 : Option Nat)
    (hfn : (fnStep true).1 = true) :
    closeScoped (α := α) true fnStep none drv2 = (false, (fnStep true).2) := by
  rcases hs : fnStep true with ⟨st1, r⟩
  rw [hs] at hfn
  simp only at hfn
  subst hfn
  cases r with
  | ok v => simp [closeScoped, closeStep, hs]
  | error e => simp [closeScoped, closeStep, hs]

/-- Claim C2, witness. -/
theorem close_scoped_releases_on_all_paths_witness :
    closeScoped (α := Nat) true (fun b => (b, Except.ok 5)) none none
      = (false, Except.ok 5) := by
  have h := close_scoped_releases_on_all_paths (α := Nat)
    (fun b => (b, Except.ok 5)) none rfl
  simpa using h

/-- Claim C3. For every operation of the Database and Statement wrappers, in
every handle state and for every driver outcome (the driver invoking the
supplied callback exactly once is built into the model), the returned promise
is settled exactly once: the list of resolve or reject calls the executor
performs has length one. For each, whose promise exists only when the trailing
argument is a function, the argument list is any list ending in a function. -/
theorem promise_settles_exactly_once
    (hasDb hasDb2 hasDb3 : Bool) (mode : Option ModeArg)
    (dOpen dClose dExec dPrep dBind dReset dFinal : Option Nat)
    (dRun : Except Nat RunInfo) (dGet : Except Nat (Option Row))
    (dAll : Except Nat (List Row)) (dEach : Except Nat Nat)
    (sRun : Except Nat RunInfo) (sGet : Except Nat (Option Row))
    (sAll : Except Nat (List Row)) (sEach : Except Nat Nat)
    (args sargs : List Arg) :
    (Database.openOp hasDb mode dOpen).2.length = 1 ∧
    (Database.closeOp hasDb2 dClose).2.length = 1 ∧
    (Database.runOp hasDb3 dRun).length = 1 ∧
    (Database.getOp hasDb3 dGet).length = 1 ∧
    (Database.allOp hasDb3 dAll).length = 1 ∧
    settlesLen (Database.eachOp (args ++ [Arg.func]) hasDb3 dEach) = some 1 ∧
    (Database.execOp hasDb3 dExec).length = 1 ∧
    (Database.prepareOp hasDb3 dPrep).length = 1 ∧
    (Statement.bindOp dBind).length = 1 ∧
    (Statement.resetOp dReset).length = 1 ∧
    (Statement.finalizeOp dFinal).length = 1 ∧
    (Statement.runOp sRun).length = 1 ∧
    (Statement.getOp sGet).length = 1 ∧
    (Statement.allOp sAll).length = 1 ∧
    settlesLen (Statement.eachOp (sargs ++ [Arg.func]) sEach) = some 1 :=
  ⟨openOp_settles hasDb mode dOpen, closeOp_settles hasDb2 dClose,
    runOp_settles hasDb3 dRun, getOp_settles hasDb3 dGet, allOp_settles hasDb3 dAll,
    eachOp_settles args hasDb3 dEach, execOp_settles hasDb3 dExec,
    prepareOp_settles hasDb3 dPrep, bindOp_settles dBind, resetOp_settles dReset,
    finalizeOp_settles dFinal, stmtRunOp_settles sRun, stmtGetOp_settles sGet,
    stmtAllOp_settles sAll, stmtEachOp_settles sargs sEach⟩

/-- Claim C4. On a handle with no attached connection (state false), every
data operation rejects with its NotOpen error (modelled as the Error object
with the exact message the source builds), for every driver outcome: run, get,
all, each with a trailing function argument, exec, prepare, and close — the
last also being the already-closed close case. -/
theorem not_open_operations_reject
    (dRun : Except Nat RunInfo) (dGet : Except Nat (Option Row))
    (dAll : Except Nat (List Row)) (dEach : Except Nat Nat)
    (dExec dPrep dClose : Option Nat) (args : List Arg) :
    Database.runOp false dRun
      = [SettleEvent.rejected (Err.error "Database.run: database is not open")] ∧
    Database.getOp false dGet
      = [SettleEvent.rejected (Err.error "Database.get: database is not open")] ∧
    Database.allOp false dAll
      = [SettleEvent.rejected (Err.error "Database.all: database is not open")] ∧
    Database.eachOp (args ++ [Arg.func]) false dEach
      = Except.ok [SettleEvent.rejected (Err.error "Database.each: database is not open")] ∧
    Database.execOp false dExec
      = [SettleEvent.rejected (Err.error "Database.exec: database is not open")] ∧
    Database.prepareOp false dPrep
      = [SettleEvent.rejected (Err.error "Database.prepare: database is not open")] ∧
    Database.closeOp false dClose
      = (false, [SettleEvent.rejected (Err.error "Database.close: database is not open")]) := by
  refine ⟨rfl, rfl, rfl, ?_, rfl, rfl, rfl⟩
  simp [Database.eachOp, lastIsFunc_append]

/-- Claim C5. open and argument-less close are atomic on driver failure: a
driver error while opening leaves the handle closed (no connection attached)
and rejects with the driver error — with the mode defaulted as well as with an
explicit numeric mode — and a driver error while closing leaves the connection
attached and rejects with the driver error. -/
theorem open_close_failure_atomic (m : Int) (e : Nat) :
    Database.openOp false none (some e)
      = (false, [SettleEvent.rejected (Err.driver e)]) ∧
    Database.openOp false (some (ModeArg.num m)) (some e)
      = (false, [SettleEvent.rejected (Err.driver e)]) ∧
    Database.closeOp true (some e)
      = (true, [SettleEvent.rejected (Err.driver e)]) :=
  ⟨rfl, rfl, rfl⟩

/-- Claim C6, counterexample. Statement.reset does not propagate a driver
error: with the driver reporting error 5, the promise resolves instead of
rejecting with that error, so the claim that every non-excepted operation
rejects with the original driver error — stated to cover Statement.reset — is
false at this input. -/
theorem reset_ignores_driver_error :
    Statement.resetOp (some 5) = [SettleEvent.resolved ()] ∧
    Statement.resetOp (some 5) ≠ [SettleEvent.rejected (Err.driver 5)] :=
  ⟨rfl, by decide⟩

/-- Claim C6, amended. Every promise-returning operation of both wrappers
except Statement.reset turns a driver error into a rejection carrying the
driver error object unchanged; Statement.reset alone resolves unconditionally,
discarding whatever the driver reported. -/
theorem driver_errors_propagate_except_reset (e : Nat) (d : Option Nat)
    (args sargs : List Arg) :
    Database.openOp false none (some e)
      = (false, [SettleEvent.rejected (Err.driver e)]) ∧
    Database.closeOp true (some e)
      = (true, [SettleEvent.rejected (Err.driver e)]) ∧
    Database.runOp true (Except.error e) = [SettleEvent.rejected (Err.driver e)] ∧
    Database.getOp true (Except.error e) = [SettleEvent.rejected (Err.driver e)] ∧
    Database.allOp true (Except.error e) = [SettleEvent.rejected (Err.driver e)] ∧
    Database.eachOp (args ++ [Arg.func]) true (Except.error e)
      = Except.ok [SettleEvent.rejected (Err.driver e)] ∧
    Database.execOp true (some e) = [SettleEvent.rejected (Err.driver e)] ∧
    Database.prepareOp true (some e) = [SettleEvent.rejected (Err.driver e)] ∧
    Statement.bindOp (some e) = [SettleEvent.rejected (Err.driver e)] ∧
    Statement.runOp (Except.error e) = [SettleEvent.rejected (Err.driver e)] ∧
    Statement.getOp (Except.error e) = [SettleEvent.rejected (Err.driver e)] ∧
    Statement.allOp (Except.error e) = [SettleEvent.rejected (Err.driver e)] ∧
    Statement.eachOp (sargs ++ [Arg.func]) (Except.error e)
      = Except.ok [SettleEvent.rejected (Err.driver e)] ∧
    Statement.finalizeOp (some e) = [SettleEvent.rejected (Err.driver e)] ∧
    Statement.resetOp d = [SettleEvent.resolved ()] := by
  refine ⟨rfl, rfl, rfl, rfl, rfl, ?_, rfl, rfl, rfl, rfl, rfl, rfl, ?_, rfl, rfl⟩
  · simp [Database.eachOp, lastIsFunc_append]
  · simp [Statement.eachOp, lastIsFunc_append]

/-- Claim C7. For every argument list whose last element is not a function —
and the empty list, for which lastIsFunc is also false — each throws its
TypeError (the InvalidArgument kind of the spec) synchronously: the result is
the thrown error, no promise is ever created, and the outcome is the same for
every open state and every driver outcome, showing the check precedes the
NotOpen check, on both the Database and the Statement wrapper. -/
theorem each_requires_trailing_function (args : List Arg)
    (h : lastIsFunc args = false) (hasDb : Bool)
    (dEach sEach : Except Nat Nat) :
    Database.eachOp args hasDb dEach
      = Except.error (Err.typeError "Database.each: last arg is not a function") ∧
    Statement.eachOp args sEach
      = Except.error (Err.typeError "Statement.each: last arg is not a function") := by
  constructor
  · simp [Database.eachOp, h]
  · simp [Statement.eachOp, h]

/-- Claim C7, witness. -/
theorem each_requires_trailing_function_witness :
    Database.eachOp [Arg.value 0] true (Except.ok 0)
      = Except.error (Err.typeError "Database.each: last arg is not a function") ∧
    Statement.eachOp [Arg.value 0] (Except.ok 0)
      = Except.error (Err.typeError "Statement.each: last arg is not a function") :=
  each_requires_trailing_function [Arg.value 0] (by decide) true (Except.ok 0) (Except.ok 0)

/-- Claim C8. With options key foo, page 2, pagecap 5 over table items, keys
[name] and select *, the helper builds exactly the claimed row statement and
count statement, and the full call (on an open handle, with the driver
returning the count and the rows) yields allcount = count, page 2, pagecap 5
and pagecount = ceil(count / 5): the computed value is (count + 4) / 5, which
the last two conjuncts characterize as the exact ceiling of count / 5. -/
theorem query_helper_concrete_build (count : Nat) (rows : List Row) :
    queryPlan ⟨some "foo", none, some "2", some "5"⟩ "items" ["name"] "*"
      = { sql := "SELECT * FROM items WHERE (name LIKE \"%foo%\") LIMIT 5 OFFSET 5",
          sqlcount := some "SELECT COUNT(*) AS count FROM items WHERE (name LIKE \"%foo%\")",
          page := some 2, pagecap := some 5 } ∧
    queryWithSelect true ⟨some "foo", none, some "2", some "5"⟩ "items" ["name"] "*"
        (Except.ok count) (Except.ok rows)
      = Except.ok
          { rows := rows, allcount := some count, page := some 2, pagecap := some 5,
            pagecount := some (((count + 4) / 5 : Nat) : Int) } ∧
    count ≤ 5 * ((count + 4) / 5) ∧
    5 * ((count + 4) / 5) < count + 5 := by
  exact ⟨rfl, rfl, by omega, by omega⟩

/-- Claim C9, counterexample. With no keyword condition, a raw condition
x > 0 supplied via options.condition and pagination requested, the row
statement filters on x > 0, while the companion count statement uses the
fixed tile_data IS NOT NULL fallback instead of the same condition: the count
statement neither matches the row condition nor is the fallback reserved for
calls with no condition at all. -/
theorem count_statement_ignores_condition_option :
    (queryPlan ⟨none, some "x > 0", some "1", none⟩ "t" [] "*").sql
      = "SELECT * FROM t WHERE x > 0 LIMIT 10 OFFSET 0" ∧
    (queryPlan ⟨none, some "x > 0", some "1", none⟩ "t" [] "*").sqlcount
      = some "SELECT COUNT(*) AS count FROM t WHERE tile_data IS NOT NULL" ∧
    (queryPlan ⟨none, some "x > 0", some "1", none⟩ "t" [] "*").sqlcount
      ≠ some "SELECT COUNT(*) AS count FROM t WHERE x > 0" :=
  ⟨rfl, rfl, by decide⟩

/-- Claim C9, amended. For every paginated call, the companion count statement
is built from the table and the keyword-search condition only: it carries the
keyword condition when one exists and the fixed tile_data IS NOT NULL fallback
whenever the keyword condition is absent — even when options.condition is
supplied — and its text is independent of the options.condition field. -/
theorem count_statement_uses_keyword_cond_only (options : QueryOptions)
    (table : String) (keys : List String) (select : String) (c2 : Option String)
    (hp : truthy options.page = true) :
    (queryPlan options table keys select).sqlcount
      = some (match keywordCond options keys with
          | some c => "SELECT COUNT(*) AS count FROM " ++ table ++ " WHERE " ++ c
          | none => "SELECT COUNT(*) AS count FROM " ++ table
              ++ " WHERE tile_data IS NOT NULL") ∧
    (queryPlan { options with condition := c2 } table keys select).sqlcount
      = (queryPlan options table keys select).sqlcount := by
  obtain ⟨k, c, p, pc⟩ := options
  constructor
  · rcases hkc : keywordCond ⟨k, c, p, pc⟩ keys with _ | c0 <;>
      simp [queryPlan, hp, hkc]
  · have hk : keywordCond ⟨k, c2, p, pc⟩ keys = keywordCond ⟨k, c, p, pc⟩ keys := by
      simp [keywordCond]
    rcases hkc : keywordCond ⟨k, c, p, pc⟩ keys with _ | c0 <;>
      simp [queryPlan, hp, hkc, hk]

/-- Claim C9 amended, witness. -/
theorem count_statement_uses_keyword_cond_only_witness :
    (queryPlan ⟨some "k", some "A", some "1", none⟩ "t" ["col"] "*").sqlcount
      = some "SELECT COUNT(*) AS count FROM t WHERE (col LIKE \"%k%\")" ∧
    (queryPlan ⟨some "k", some "B", some "1", none⟩ "t" ["col"] "*").sqlcount
      = (queryPlan ⟨some "k", some "A", some "1", none⟩ "t" ["col"] "*").sqlcount := by
  have h := count_statement_uses_keyword_cond_only ⟨some "k", some "A", some "1", none⟩
    "t" ["col"] "*" (some "B") rfl
  refine ⟨?_, h.2⟩
  rw [h.1]
  rfl

/-- Claim C10. Calling transaction on a handle with no attached connection
rejects with the NotOpen error of exec, for every driver configuration and
every behavior of fn — the result does not depend on fn, so fn is never
reached — and the list of SQL statements handed to the driver is empty: not
even BEGIN TRANSACTION is issued, because the NotOpen rejection in exec
happens before the driver call. -/
theorem transaction_not_open_rejects {α : Type} (d : TxDriver)
    (fnIssues : List String) (fnResult : Except Err α) :
    transactionModel (α := α) false d fnIssues fnResult
      = ([], Except.error (Err.error "Database.exec: database is not open")) := by
  cases fnResult <;> rfl

end DbAsync
